import Mathlib

/-!
Verification of the Sanctuary identity / envelope-backup / attestation service.

This file embeds the data model and operations of the Sanctuary API
(`src/api/src/routes/backups.ts`, `src/api/src/db/index.ts`,
`src/api/src/config.ts`, shared types) as executable Lean definitions and
proves properties of them.  JavaScript numbers that the routes treat as
integers (unix timestamps, sequence numbers, sizes, scores at integral
values) are modelled as `Int`/`Nat`; dynamic JSON values are modelled by
the inductive type `JVal`.
-/

/-- A parsed JSON value as produced by `JSON.parse`.  Numbers are modelled
at integral values (the header fields the server reads are unix timestamps
and sequence numbers). -/
inductive JVal where
  | null : JVal
  | bool (b : Bool) : JVal
  | num (n : Int) : JVal
  | str (s : String) : JVal
  | obj (fields : List (String × JVal)) : JVal
  | arr (elems : List JVal) : JVal

/-- JavaScript property access `j[k]` on a parsed JSON value: a lookup in an
object, `undefined` (here `none`) otherwise. -/
def getField : JVal → String → Option JVal
  | .obj kvs, k => (kvs.find? (fun kv => kv.1 == k)).map (fun kv => kv.2)
  | _, _ => none

/-- `typeof j[k] === "string" && j[k] !== ""` (a present, truthy string). -/
def isNonemptyStrField (j : JVal) (k : String) : Bool :=
  match getField j k with
  | some (.str s) => !(s == "")
  | _ => false

/-- `typeof j[k] === "string"` (the empty string is allowed). -/
def isStrField (j : JVal) (k : String) : Bool :=
  match getField j k with
  | some (.str _) => true
  | _ => false

/-- `typeof j[k] === "number"`. -/
def isNumField (j : JVal) (k : String) : Bool :=
  match getField j k with
  | some (.num _) => true
  | _ => false

/-- `typeof j[k] === "object" && j[k] !== null`; in JavaScript both plain
objects and arrays have `typeof` equal to `"object"`. -/
def isObjField (j : JVal) (k : String) : Bool :=
  match getField j k with
  | some (.obj _) => true
  | some (.arr _) => true
  | _ => false

/-- `typeof j[k1][k2] === "string"` for a `k1` already known to be present. -/
def isStrSubField (j : JVal) (k1 k2 : String) : Bool :=
  match getField j k1 with
  | some w =>
    match getField w k2 with
    | some (.str _) => true
    | _ => false
  | none => false

/-- Read a string field, defaulting to the empty string. -/
def strField (j : JVal) (k : String) : String :=
  match getField j k with
  | some (.str s) => s
  | _ => ""

/-- Read a numeric field, defaulting to zero. -/
def numField (j : JVal) (k : String) : Int :=
  match getField j k with
  | some (.num n) => n
  | _ => 0

/-- The field checks of `validateBackupHeader` (`routes/backups.ts`,
after the initial object check), in source order. -/
def validateBackupHeaderFields (j : JVal) : Option String :=
  if !(isNonemptyStrField j "agent_id") then
    some "Missing or invalid field: agent_id (string)"
  else if !(isNonemptyStrField j "backup_id") then
    some "Missing or invalid field: backup_id (string)"
  else if !(isNumField j "backup_seq") then
    some "Missing or invalid field: backup_seq (number)"
  else if !(isNumField j "timestamp") then
    some "Missing or invalid field: timestamp (number)"
  else if !(isStrField j "manifest_hash") then
    some "Missing or invalid field: manifest_hash (string)"
  else if !(isObjField j "files") then
    some "Missing or invalid field: files (object)"
  else if !(isObjField j "wrapped_keys") then
    some "Missing or invalid field: wrapped_keys (object)"
  else if !(isStrSubField j "wrapped_keys" "recovery"
      && isStrSubField j "wrapped_keys" "recall") then
    some "wrapped_keys must contain recovery and recall strings"
  else if !(isNonemptyStrField j "signature") then
    some "Missing or invalid field: signature (string)"
  else
    none

/-- `validateBackupHeader` from `routes/backups.ts`: returns `none` when the
parsed header is structurally valid, or a descriptive error string.  The
first branch is `typeof header !== "object" || header === null`. -/
def validateBackupHeader (j : JVal) : Option String :=
  match j with
  | .obj _ => validateBackupHeaderFields j
  | .arr _ => validateBackupHeaderFields j
  | _ => some "Backup header must be a JSON object"

/-- Written from the spec wording for the amended claim C1: the header is
structurally complete when each field the server validates (agent_id,
backup_id, backup_seq, timestamp, manifest_hash, files,
wrapped_keys.recovery, wrapped_keys.recall, signature) is present with the
correct type. -/
def headerStructurallyValid (j : JVal) : Bool :=
  (match j with
   | .obj _ => true
   | .arr _ => true
   | _ => false)
  && isNonemptyStrField j "agent_id"
  && isNonemptyStrField j "backup_id"
  && isNumField j "backup_seq"
  && isNumField j "timestamp"
  && isStrField j "manifest_hash"
  && isObjField j "files"
  && isObjField j "wrapped_keys"
  && isStrSubField j "wrapped_keys" "recovery"
  && isStrSubField j "wrapped_keys" "recall"
  && isNonemptyStrField j "signature"

/-- ASCII lowercase of one character, as `String.prototype.toLowerCase`
behaves on the hex addresses and statuses this service compares. -/
def lowerChar (c : Char) : Char :=
  if 0x41 ≤ c.toNat ∧ c.toNat ≤ 0x5A then Char.ofNat (c.toNat + 32) else c

/-- ASCII lowercase of a string. -/
def lowerStr (s : String) : String :=
  String.mk (s.data.map lowerChar)

/-- A row of the `users` table (`db/index.ts`, `DbUser`). -/
structure UserRec where
  github_id : String
  github_username : String
  github_created_at : String
  created_at : Int
deriving DecidableEq

/-- A row of the `agents` table (`db/index.ts`, `DbAgent`). -/
structure AgentRec where
  agent_id : String
  github_id : String
  recovery_pubkey : String
  manifest_hash : String
  manifest_version : Int
  registered_at : Int
  status : String
deriving DecidableEq

/-- A row of the `backups` table (`db/index.ts`, `DbBackup`). -/
structure BackupRec where
  id : String
  agent_id : String
  arweave_tx_id : String
  backup_seq : Nat
  agent_timestamp : Int
  received_at : Int
  size_bytes : Nat
  manifest_hash : String
deriving DecidableEq

/-- A row of the `heartbeats` table (`db/index.ts`, `DbHeartbeat`). -/
structure HeartbeatRec where
  id : Nat
  agent_id : String
  agent_timestamp : Int
  received_at : Int
  sig : String
deriving DecidableEq

/-- A row of the `trust_scores` table (`db/index.ts`, `DbTrustScore`);
`score` is a SQLite REAL, modelled here at integral values. -/
structure TrustRec where
  agent_id : String
  score : Int
  level : String
  unique_attesters : Nat
  computed_at : Int
deriving DecidableEq

/-- A row of the `attestation_notes` table (`db/index.ts`,
`DbAttestationNote`); `hash` is the PRIMARY KEY. -/
structure NoteRec where
  hash : String
  content : String
  created_at : Int
deriving DecidableEq

/-- The record store (`SanctuaryDb`): the `agents`, `users`, `trust_scores`
and `attestation_notes` tables, plus the `backups` and `heartbeats` tables
indexed by `agent_id` (the only access path the routes use). -/
structure Db where
  agents : List AgentRec
  users : String → Option UserRec
  backups : String → List BackupRec
  heartbeats : String → List HeartbeatRec
  trust : String → Option TrustRec
  notes : List NoteRec

/-- `SanctuaryDb.getAgent`: `SELECT * FROM agents WHERE agent_id = ?`. -/
def getAgent (db : Db) (agentId : String) : Option AgentRec :=
  db.agents.find? (fun a => a.agent_id == agentId)

/-- `SanctuaryDb.getAgentByGithubId`:
`SELECT * FROM agents WHERE github_id = ?`. -/
def getAgentByGithubId (db : Db) (githubId : String) : Option AgentRec :=
  db.agents.find? (fun a => a.github_id == githubId)

/-- `SanctuaryDb.getUser`. -/
def getUser (db : Db) (githubId : String) : Option UserRec :=
  db.users githubId

/-- The row with the highest `backup_seq` (later rows win ties), i.e. the
result of `ORDER BY backup_seq DESC LIMIT 1`. -/
def maxBySeq (l : List BackupRec) : Option BackupRec :=
  l.foldl
    (fun acc b =>
      match acc with
      | none => some b
      | some m => if b.backup_seq ≥ m.backup_seq then some b else some m)
    none

/-- `SanctuaryDb.getLatestBackup`:
`SELECT * FROM backups WHERE agent_id = ? ORDER BY backup_seq DESC LIMIT 1`. -/
def getLatestBackup (db : Db) (agentId : String) : Option BackupRec :=
  maxBySeq (db.backups agentId)

/-- `SanctuaryDb.getBackupCount`:
`SELECT COUNT(*) FROM backups WHERE agent_id = ?`. -/
def getBackupCount (db : Db) (agentId : String) : Nat :=
  (db.backups agentId).length

/-- `SanctuaryDb.getNextBackupSeq`: one past the latest sequence number, or
1 when the agent has no backups. -/
def getNextBackupSeq (db : Db) (agentId : String) : Nat :=
  match getLatestBackup db agentId with
  | some latest => latest.backup_seq + 1
  | none => 1

/-- `SanctuaryDb.createBackup`: INSERT a row into `backups`. -/
def createBackup (db : Db) (b : BackupRec) : Db :=
  { db with
    backups := fun a => if a = b.agent_id then db.backups a ++ [b] else db.backups a }

/-- The row with the highest `received_at` (later rows win ties), i.e.
`ORDER BY received_at DESC LIMIT 1`. -/
def maxByReceived (l : List HeartbeatRec) : Option HeartbeatRec :=
  l.foldl
    (fun acc h =>
      match acc with
      | none => some h
      | some m => if h.received_at ≥ m.received_at then some h else some m)
    none

/-- `SanctuaryDb.getLatestHeartbeat`. -/
def getLatestHeartbeat (db : Db) (agentId : String) : Option HeartbeatRec :=
  maxByReceived (db.heartbeats agentId)

/-- `SanctuaryDb.getTrustScore`. -/
def getTrustScore (db : Db) (agentId : String) : Option TrustRec :=
  db.trust agentId

/-- `SanctuaryDb.createAttestationNote`:
`INSERT OR IGNORE INTO attestation_notes` with `hash` the PRIMARY KEY —
the insert is silently dropped when a row with that hash already exists. -/
def createAttestationNote (db : Db) (n : NoteRec) : Db :=
  if (db.notes.find? (fun r => r.hash == n.hash)).isSome then db
  else { db with notes := db.notes ++ [n] }

/-- `SanctuaryDb.getAttestationNote`:
`SELECT * FROM attestation_notes WHERE hash = ?`. -/
def getAttestationNote (db : Db) (h : String) : Option NoteRec :=
  db.notes.find? (fun r => r.hash == h)

/-- The configuration fields of `config.ts` that the backup and agent
routes consume. -/
structure Config where
  backupSizeLimit : Nat
  chainId : Int
  contractAddress : String
  jwtSecret : String
deriving DecidableEq

/-- The `X-Backup-Header` request header after transport decoding: absent,
present but not base64-encoded JSON, or parsed into a JSON value. -/
inductive HeaderInput where
  | missing : HeaderInput
  | unparseable : HeaderInput
  | parsed (j : JVal) : HeaderInput

/-- The failure modes of `POST /backups/upload`, in the order the route
checks them. -/
inductive UploadError where
  | missingHeader
  | badHeaderEncoding
  | validation (msg : String)
  | agentMismatch
  | badSignature
  | emptyBody
  | tooLarge (limit : Nat)
  | agentNotFound
  | badStatus (status : String)
  | rateLimit (hoursRemaining : Int)
deriving DecidableEq

/-- The 201 response body of a successful upload. -/
structure UploadResult where
  backup_id : String
  backup_seq : Nat
  arweave_tx_id : String
  size_bytes : Nat
  received_at : Int
deriving DecidableEq

/-- `Math.ceil(a / b)` on integers, for positive `b`. -/
def jsCeilDiv (a b : Int) : Int :=
  (a + b - 1).ediv b

/-- The backup row the accept branch of `POST /backups/upload` inserts:
`backup_seq` comes from `getNextBackupSeq`; `agent_timestamp` is
`backupHeader.timestamp || receivedAt` (a JavaScript falsy-or, so a zero
timestamp falls back to the receipt time); `manifest_hash` is
`backupHeader.manifest_hash || ""`. -/
def mkBackupRec (db : Db) (agentId : String) (j : JVal) (bodyLen : Nat)
    (now : Int) (backupId arweaveTxId : String) : BackupRec :=
  { id := backupId
    agent_id := agentId
    arweave_tx_id := arweaveTxId
    backup_seq := getNextBackupSeq db agentId
    agent_timestamp := if numField j "timestamp" = 0 then now else numField j "timestamp"
    received_at := now
    size_bytes := bodyLen
    manifest_hash := strField j "manifest_hash" }

/-- The accept branch of `POST /backups/upload`: record the backup and
return the 201 payload.  `backupId` and `arweaveTxId` stand for the two
`uuidv4()` draws of the route. -/
def acceptUpload (db : Db) (agentId : String) (j : JVal) (bodyLen : Nat)
    (now : Int) (backupId arweaveTxId : String) :
    Except UploadError UploadResult × Db :=
  let rec0 := mkBackupRec db agentId j bodyLen now backupId arweaveTxId
  (.ok
    { backup_id := backupId
      backup_seq := rec0.backup_seq
      arweave_tx_id := arweaveTxId
      size_bytes := bodyLen
      received_at := now },
   createBackup db rec0)

/-- `POST /backups/upload` (`routes/backups.ts`), translated check by check
in source order.  `sigVerify` stands for `verifyBackupHeaderSignature`
(from `utils/crypto`, outside this repository slice); `agentId` is the
authenticated caller set by `verifyAgentAuth`; `bodyLen` is the length of
the binary body; `now` is the current unix time (the route reads the clock
for the rate-limit check and for `received_at` within the same request,
modelled as one instant). -/
def uploadBackup (sigVerify : JVal → String → Bool) (cfg : Config) (db : Db)
    (agentId : String) (hdr : HeaderInput) (bodyLen : Nat) (now : Int)
    (backupId arweaveTxId : String) :
    Except UploadError UploadResult × Db :=
  match hdr with
  | .missing => (.error .missingHeader, db)
  | .unparseable => (.error .badHeaderEncoding, db)
  | .parsed j =>
    match validateBackupHeader j with
    | some e => (.error (.validation e), db)
    | none =>
      if lowerStr (strField j "agent_id") != lowerStr agentId then
        (.error .agentMismatch, db)
      else if !(sigVerify j agentId) then
        (.error .badSignature, db)
      else if bodyLen = 0 then
        (.error .emptyBody, db)
      else if bodyLen > cfg.backupSizeLimit then
        (.error (.tooLarge cfg.backupSizeLimit), db)
      else
        match getAgent db agentId with
        | none => (.error .agentNotFound, db)
        | some ag =>
          if ag.status != "LIVING" && ag.status != "RETURNED" then
            (.error (.badStatus ag.status), db)
          else
            match getLatestBackup db agentId with
            | some latest =>
              if now - latest.received_at < 86400 then
                (.error (.rateLimit
                  (jsCeilDiv (86400 - (now - latest.received_at)) 3600)), db)
              else
                acceptUpload db agentId j bodyLen now backupId arweaveTxId
            | none =>
              acceptUpload db agentId j bodyLen now backupId arweaveTxId

/-- Is `c` an ASCII hexadecimal digit. -/
def isHexDigit (c : Char) : Bool :=
  (0x30 ≤ c.toNat && c.toNat ≤ 0x39)
  || (0x61 ≤ c.toNat && c.toNat ≤ 0x66)
  || (0x41 ≤ c.toNat && c.toNat ≤ 0x46)

/-- Modelled from the spec: `isValidAddress` lives in `utils/crypto`, which
is not part of this repository slice; the registration route documents the
check as "must be valid Ethereum address", i.e. `0x` followed by 40
hexadecimal digits. -/
def isValidAddress (s : String) : Bool :=
  match s.data with
  | '0' :: 'x' :: rest => rest.length == 40 && rest.all isHexDigit
  | _ => false

/-- Modelled from the spec: `normalizeAddress` lives in `utils/crypto`,
which is not part of this repository slice; modelled as canonicalisation to
lowercase hex (the routes compare its output case-insensitively). -/
def normalizeAddress (s : String) : String :=
  lowerStr s

/-- Is `s` a `0x`-prefixed 32-byte hex string, the route regex
`/^0x[a-fA-F0-9]{64}$/`. -/
def isHex32Bytes (s : String) : Bool :=
  match s.data with
  | '0' :: 'x' :: rest => rest.length == 64 && rest.all isHexDigit
  | _ => false

/-- The decoded JWT of `POST /agents/register` (`request.jwtVerify`):
`none` models a verification failure. -/
structure GithubAuth where
  ty : String
  githubId : String
deriving DecidableEq

/-- The request body of `POST /agents/register`. -/
structure RegBody where
  agentId : String
  recoveryPubKey : String
  manifestHash : String
  manifestVersion : Int
deriving DecidableEq

/-- The failure modes of `POST /agents/register`, in source order. -/
inductive RegError where
  | authRequired
  | githubAuthRequired
  | invalidAgentId
  | invalidRecoveryPubKey
  | invalidManifestHash
  | agentAlreadyRegistered
  | githubAccountHasAgent (existing : String)
  | userNotFound
deriving DecidableEq

/-- The 201 response body of a successful registration. -/
structure RegOk where
  agent_id : String
  registered_at : Int
  status : String
deriving DecidableEq

/-- `POST /agents/register` (`routes/backups.ts`, `agentRoutes`), check by
check in source order.  Note that the route takes the agent id from the
request body: its only constraints are the address shape, non-collision
with existing rows, and one agent per GitHub account — no signing key or
signature enters the function. -/
def registerAgent (db : Db) (auth : Option GithubAuth) (body : RegBody)
    (now : Int) : Except RegError RegOk × Db :=
  match auth with
  | none => (.error .authRequired, db)
  | some d =>
    if d.ty != "github" || d.githubId == "" then
      (.error .githubAuthRequired, db)
    else if body.agentId == "" || !(isValidAddress body.agentId) then
      (.error .invalidAgentId, db)
    else if body.recoveryPubKey == "" || !(isHex32Bytes body.recoveryPubKey) then
      (.error .invalidRecoveryPubKey, db)
    else if body.manifestHash == "" || !(isHex32Bytes body.manifestHash) then
      (.error .invalidManifestHash, db)
    else
      let normalizedId := normalizeAddress body.agentId
      if (getAgent db normalizedId).isSome then
        (.error .agentAlreadyRegistered, db)
      else
        match getAgentByGithubId db d.githubId with
        | some existing => (.error (.githubAccountHasAgent existing.agent_id), db)
        | none =>
          if (getUser db d.githubId).isNone then
            (.error .userNotFound, db)
          else
            let newAgent : AgentRec :=
              { agent_id := normalizedId
                github_id := d.githubId
                recovery_pubkey := lowerStr body.recoveryPubKey
                manifest_hash := lowerStr body.manifestHash
                manifest_version := if body.manifestVersion = 0 then 1 else body.manifestVersion
                registered_at := now
                status := "LIVING" }
            (.ok { agent_id := normalizedId, registered_at := now, status := "LIVING" },
             { db with agents := db.agents ++ [newAgent] })

/-- The failure modes of the authenticated read routes. -/
inductive RouteError where
  | invalidAgentId
  | forbidden
  | notFound
deriving DecidableEq

/-- One entry of the `GET /backups/:agentId` response list. -/
structure BackupListEntry where
  id : String
  backup_seq : Nat
  arweave_tx_id : String
  timestamp : Int
  received_at : Int
  size_bytes : Nat
  manifest_hash : String
deriving DecidableEq

/-- Insert into a list kept sorted by descending `backup_seq`. -/
def insertDescBySeq (b : BackupRec) : List BackupRec → List BackupRec
  | [] => [b]
  | c :: cs =>
    if b.backup_seq ≥ c.backup_seq then b :: c :: cs
    else c :: insertDescBySeq b cs

/-- `ORDER BY backup_seq DESC` as an insertion sort. -/
def sortBySeqDesc (l : List BackupRec) : List BackupRec :=
  l.foldr insertDescBySeq []

/-- `SanctuaryDb.getBackupsByAgent`:
`SELECT * FROM backups WHERE agent_id = ? ORDER BY backup_seq DESC LIMIT ?`. -/
def getBackupsByAgent (db : Db) (agentId : String) (limit : Nat) : List BackupRec :=
  (sortBySeqDesc (db.backups agentId)).take limit

/-- The `GET /backups/:agentId` response body. -/
structure ListBackupsResp where
  agent_id : String
  count : Nat
  backups : List BackupListEntry
deriving DecidableEq

/-- `GET /backups/:agentId` (`routes/backups.ts`): address check, then the
own-backups-only guard (case-insensitive), then the listing with the limit
clamped to 100 (`request.query.limit || 30` is `limit` here). -/
def listBackupsRoute (db : Db) (callerAgentId : String) (reqAgentId : String)
    (limit : Nat) : Except RouteError ListBackupsResp :=
  if !(isValidAddress reqAgentId) then .error .invalidAgentId
  else
    let normalizedId := normalizeAddress reqAgentId
    if lowerStr normalizedId != lowerStr callerAgentId then .error .forbidden
    else
      let backups := getBackupsByAgent db normalizedId (min limit 100)
      .ok
        { agent_id := normalizedId
          count := backups.length
          backups := backups.map (fun b =>
            { id := b.id
              backup_seq := b.backup_seq
              arweave_tx_id := b.arweave_tx_id
              timestamp := b.agent_timestamp
              received_at := b.received_at
              size_bytes := b.size_bytes
              manifest_hash := b.manifest_hash }) }

/-- `GET /backups/:agentId/latest` (`routes/backups.ts`): address check,
own-backups-only guard (case-insensitive), then the latest backup or 404. -/
def latestBackupRoute (db : Db) (callerAgentId : String) (reqAgentId : String) :
    Except RouteError BackupListEntry :=
  if !(isValidAddress reqAgentId) then .error .invalidAgentId
  else
    let normalizedId := normalizeAddress reqAgentId
    if lowerStr normalizedId != lowerStr callerAgentId then .error .forbidden
    else
      match getLatestBackup db normalizedId with
      | none => .error .notFound
      | some b =>
        .ok
          { id := b.id
            backup_seq := b.backup_seq
            arweave_tx_id := b.arweave_tx_id
            timestamp := b.agent_timestamp
            received_at := b.received_at
            size_bytes := b.size_bytes
            manifest_hash := b.manifest_hash }

/-- `TRUST_THRESHOLDS` from the shared types (`shared/types`). -/
structure TrustThresholds where
  UNVERIFIED : ℚ
  VERIFIED : ℚ
  ESTABLISHED : ℚ
  PILLAR : ℚ

/-- The threshold constants of the shared types. -/
def TRUST_THRESHOLDS : TrustThresholds :=
  { UNVERIFIED := 0, VERIFIED := 20, ESTABLISHED := 50, PILLAR := 100 }

/-- Modelled from the spec: the trust-tier step function itself is not in
this repository slice (only its thresholds `TRUST_THRESHOLDS` are, in the
shared types); the spec defines the tiering as a pure step function of the
score: below 20 UNVERIFIED, in [20,50) VERIFIED, in [50,100) ESTABLISHED,
at or above 100 PILLAR.  Scores are SQLite REALs, modelled as rationals. -/
def trustLevelForScore (s : ℚ) : String :=
  if s ≥ TRUST_THRESHOLDS.PILLAR then "PILLAR"
  else if s ≥ TRUST_THRESHOLDS.ESTABLISHED then "ESTABLISHED"
  else if s ≥ TRUST_THRESHOLDS.VERIFIED then "VERIFIED"
  else "UNVERIFIED"

/-- UTF-8 encoding of one character. -/
def utf8Bytes (c : Char) : List Nat :=
  let n := c.toNat
  if n < 0x80 then [n]
  else if n < 0x800 then [0xC0 + n / 64, 0x80 + n % 64]
  else if n < 0x10000 then
    [0xE0 + n / 4096, 0x80 + (n / 64) % 64, 0x80 + n % 64]
  else
    [0xF0 + n / 262144, 0x80 + (n / 4096) % 64, 0x80 + (n / 64) % 64, 0x80 + n % 64]

/-- UTF-8 bytes of a string. -/
def strBytes (s : String) : List Nat :=
  (s.data.map utf8Bytes).flatten

/-- Rotate a 32-bit word right by `n` bits. -/
def rotr32 (n w : Nat) : Nat :=
  (w / 2 ^ n + (w % 2 ^ n) * 2 ^ (32 - n)) % 4294967296

/-- Shift a 32-bit word right by `n` bits. -/
def shr32 (n w : Nat) : Nat := w / 2 ^ n

def smallSigma0 (w : Nat) : Nat := rotr32 7 w ^^^ rotr32 18 w ^^^ shr32 3 w
def smallSigma1 (w : Nat) : Nat := rotr32 17 w ^^^ rotr32 19 w ^^^ shr32 10 w
def bigSigma0 (a : Nat) : Nat := rotr32 2 a ^^^ rotr32 13 a ^^^ rotr32 22 a
def bigSigma1 (e : Nat) : Nat := rotr32 6 e ^^^ rotr32 11 e ^^^ rotr32 25 e
def chFn (x y z : Nat) : Nat := (x &&& y) ^^^ ((x ^^^ 0xFFFFFFFF) &&& z)
def majFn (x y z : Nat) : Nat := (x &&& y) ^^^ (x &&& z) ^^^ (y &&& z)

/-- The 64 SHA-256 round constants of FIPS 180-4, as decimal values. -/
def shaK : List Nat :=
  [1116352408, 1899447441, 3049323471, 3921009573, 961987163,
   1508970993, 2453635748, 2870763221, 3624381080, 310598401,
   607225278, 1426881987, 1925078388, 2162078206, 2614888103,
   3248222580, 3835390401, 4022224774, 264347078, 604807628,
   770255983, 1249150122, 1555081692, 1996064986, 2554220882,
   2821834349, 2952996808, 3210313671, 3336571891, 3584528711,
   113926993, 338241895, 666307205, 773529912, 1294757372,
   1396182291, 1695183700, 1986661051, 2177026350, 2456956037,
   2730485921, 2820302411, 3259730800, 3345764771, 3516065817,
   3600352804, 4094571909, 275423344, 430227734, 506948616,
   659060556, 883997877, 958139571, 1322822218, 1537002063,
   1747873779, 1955562222, 2024104815, 2227730452, 2361852424,
   2428436474, 2756734187, 3204031479, 3329325298]
/-- The SHA-256 initial hash state of FIPS 180-4, as decimal values. -/
def shaH0 : List Nat :=
  [1779033703, 3144134277, 1013904242, 2773480762,
   1359893119, 2600822924, 528734635, 1541459225]
/-- Big-endian bytes of a 64-bit number. -/
def be64 (n : Nat) : List Nat :=
  [n / 2 ^ 56 % 256, n / 2 ^ 48 % 256, n / 2 ^ 40 % 256, n / 2 ^ 32 % 256,
   n / 2 ^ 24 % 256, n / 2 ^ 16 % 256, n / 2 ^ 8 % 256, n % 256]

/-- SHA-256 padding: append 0x80, zeros to 56 mod 64, then the bit length. -/
def padMessage (msg : List Nat) : List Nat :=
  msg ++ [0x80] ++ List.replicate ((119 - msg.length % 64) % 64) 0
      ++ be64 (8 * msg.length)

/-- Split into chunks of 64 bytes, with the list length as fuel. -/
def chunksAux : Nat → List Nat → List (List Nat)
  | 0, _ => []
  | _, [] => []
  | fuel + 1, l => l.take 64 :: chunksAux fuel (l.drop 64)

/-- Split a byte list into 64-byte blocks. -/
def chunks64 (l : List Nat) : List (List Nat) := chunksAux l.length l

/-- Combine bytes into big-endian 32-bit words. -/
def words32 : List Nat → List Nat
  | b0 :: b1 :: b2 :: b3 :: rest =>
    (b0 * 16777216 + b1 * 65536 + b2 * 256 + b3) :: words32 rest
  | _ => []

/-- Extend 16 words to the 64-word SHA-256 message schedule. -/
def schedule (ws : List Nat) : List Nat :=
  (List.range 48).foldl
    (fun w _ =>
      w ++ [(smallSigma1 (w.getD (w.length - 2) 0) + w.getD (w.length - 7) 0
             + smallSigma0 (w.getD (w.length - 15) 0) + w.getD (w.length - 16) 0)
            % 4294967296])
    ws

/-- One SHA-256 round on the eight-word working state. -/
def roundStep (st : List Nat) (kw : Nat × Nat) : List Nat :=
  match st with
  | [a, b, c, d, e, f, g, h] =>
    let t1 := (h + bigSigma1 e + chFn e f g + kw.1 + kw.2) % 4294967296
    let t2 := (bigSigma0 a + majFn a b c) % 4294967296
    [(t1 + t2) % 4294967296, a, b, c, (d + t1) % 4294967296, e, f, g]
  | _ => st

/-- Compress one 64-byte block into the hash state. -/
def compressBlock (h : List Nat) (block : List Nat) : List Nat :=
  let st := (shaK.zip (schedule (words32 block))).foldl roundStep h
  (h.zip st).map (fun p => (p.1 + p.2) % 4294967296)

/-- SHA-256 of a byte list. -/
def sha256Bytes (msg : List Nat) : List Nat :=
  let final := (chunks64 (padMessage msg)).foldl compressBlock shaH0
  (final.map (fun n => [n / 2 ^ 24 % 256, n / 2 ^ 16 % 256, n / 2 ^ 8 % 256, n % 256])).flatten

/-- Lowercase hexadecimal digit. -/
def hexChar (n : Nat) : Char :=
  if n < 10 then Char.ofNat (48 + n) else Char.ofNat (87 + n)

/-- Lowercase hexadecimal rendering of a byte list. -/
def toHex (bytes : List Nat) : String :=
  String.mk ((bytes.map (fun b => [hexChar (b / 16), hexChar (b % 16)])).flatten)

/-- `createHash("sha256").update(s).digest("hex")`: SHA-256 of the UTF-8
bytes of `s`, rendered as lowercase hex. -/
def sha256Hex (s : String) : String := toHex (sha256Bytes (strBytes s))

/-- `createHmac("sha256", key).update(msg).digest("hex")`: HMAC-SHA256 per
RFC 2104 with a 64-byte block. -/
def hmacSha256Hex (key msg : String) : String :=
  let kb := strBytes key
  let k1 := if kb.length > 64 then sha256Bytes kb else kb
  let k2 := k1 ++ List.replicate (64 - k1.length) 0
  toHex (sha256Bytes ((k2.map (· ^^^ 0x5c))
    ++ sha256Bytes ((k2.map (· ^^^ 0x36)) ++ strBytes msg)))

/-- JSON string escaping as `JSON.stringify` performs it: backslash, quote,
the named control escapes, and `\u00XX` for the remaining control bytes. -/
def jsonEscapeChar (c : Char) : List Char :=
  if c = '\\' then ['\\', '\\']
  else if c = '"' then ['\\', '"']
  else if c = Char.ofNat 8 then ['\\', 'b']
  else if c = Char.ofNat 9 then ['\\', 't']
  else if c = Char.ofNat 10 then ['\\', 'n']
  else if c = Char.ofNat 12 then ['\\', 'f']
  else if c = Char.ofNat 13 then ['\\', 'r']
  else if c.toNat < 32 then
    ['\\', 'u', '0', '0', hexChar (c.toNat / 16), hexChar (c.toNat % 16)]
  else [c]

/-- Escape a string for inclusion in JSON output. -/
def jsonEscape (s : String) : String :=
  String.mk ((s.data.map jsonEscapeChar).flatten)

/-- A JSON string literal. -/
def jsonStr (s : String) : String := "\"" ++ jsonEscape s ++ "\""

/-- Render a key/value list as `JSON.stringify` renders an object literal:
keys in insertion order, no whitespace (values arrive already rendered). -/
def jsonObj (fields : List (String × String)) : String :=
  "\x7b" ++ String.intercalate "," (fields.map (fun kv => jsonStr kv.1 ++ ":" ++ kv.2)) ++ "\x7d"

/-- The identity-proof payload assembled by `POST /agents/:agentId/proof`
(`routes/backups.ts`, `agentRoutes`), with its fields in the order the
route writes them.  `last_heartbeat` is `null | number`; `trust_score` is a
SQLite REAL, modelled at integral values. -/
structure ProofPayload where
  agent_id : String
  backup_count : Nat
  chain_id : Int
  contract_address : String
  issued_at : Int
  last_heartbeat : Option Int
  registered_at : Int
  status : String
  trust_level : String
  trust_score : Int
deriving DecidableEq

/-- The payload as the ordered key/value list `JSON.stringify` receives:
the object-literal insertion order of the route. -/
def proofFields (p : ProofPayload) : List (String × String) :=
  [("agent_id", jsonStr p.agent_id),
   ("backup_count", toString p.backup_count),
   ("chain_id", toString p.chain_id),
   ("contract_address", jsonStr p.contract_address),
   ("issued_at", toString p.issued_at),
   ("last_heartbeat", match p.last_heartbeat with
                      | none => "null"
                      | some t => toString t),
   ("registered_at", toString p.registered_at),
   ("status", jsonStr p.status),
   ("trust_level", jsonStr p.trust_level),
   ("trust_score", toString p.trust_score)]

/-- `JSON.stringify(payload)` for the proof payload. -/
def serializeProofPayload (p : ProofPayload) : String :=
  jsonObj (proofFields p)

/-- The key list of the proof payload. -/
def proofPayloadKeys : List String :=
  ["agent_id", "backup_count", "chain_id", "contract_address", "issued_at",
   "last_heartbeat", "registered_at", "status", "trust_level", "trust_score"]

/-- Strict lexicographic (ASCII byte) order on character lists. -/
def charsLt : List Char → List Char → Bool
  | [], [] => false
  | [], _ :: _ => true
  | _ :: _, [] => false
  | a :: as, b :: bs =>
    if a.toNat < b.toNat then true
    else if b.toNat < a.toNat then false
    else charsLt as bs

/-- Strict lexicographic (ASCII byte) order on strings. -/
def strLtB (a b : String) : Bool := charsLt a.data b.data

/-- Is a list of strings strictly sorted in ascending lexicographic order. -/
def sortedStrictAsc : List String → Bool
  | [] => true
  | [_] => true
  | a :: b :: rest => strLtB a b && sortedStrictAsc (b :: rest)

/-- The server-signed identity proof: the payload together with
`proof_hash` and `server_signature` as the route returns them (the route
spreads the payload into the response; the `verify_url` hint is omitted as
presentation). -/
structure Proof where
  payload : ProofPayload
  proof_hash : String
  server_signature : String
deriving DecidableEq

/-- The payload-assembly step of `POST /agents/:agentId/proof`: each field
as the route computes it, including the JavaScript falsy-or fallbacks
(`latestHeartbeat?.received_at || null`, `trustScore?.level ||
"UNVERIFIED"`, `trustScore?.score || 0`). -/
def generateProofPayload (cfg : Config) (db : Db) (ag : AgentRec) (now : Int) :
    ProofPayload :=
  { agent_id := ag.agent_id
    backup_count := getBackupCount db ag.agent_id
    chain_id := cfg.chainId
    contract_address := cfg.contractAddress
    issued_at := now
    last_heartbeat :=
      match getLatestHeartbeat db ag.agent_id with
      | some h => if h.received_at = 0 then none else some h.received_at
      | none => none
    registered_at := ag.registered_at
    status := ag.status
    trust_level :=
      match getTrustScore db ag.agent_id with
      | some t => if t.level == "" then "UNVERIFIED" else t.level
      | none => "UNVERIFIED"
    trust_score :=
      match getTrustScore db ag.agent_id with
      | some t => t.score
      | none => 0 }

/-- The proof construction of `POST /agents/:agentId/proof`: hash the
serialized payload with SHA-256, then sign the hash with HMAC-SHA256 under
the server JWT secret. -/
def generateProof (cfg : Config) (db : Db) (ag : AgentRec) (now : Int) : Proof :=
  let payload := generateProofPayload cfg db ag now
  let proofHash := sha256Hex (serializeProofPayload payload)
  { payload := payload
    proof_hash := proofHash
    server_signature := hmacSha256Hex cfg.jwtSecret proofHash }

/-- Modelled from the spec: `IdentityProof.verify` is described in the spec
but not part of this repository slice; per the spec a third party
recomputes the digest over the payload fields as given, confirms it equals
`proof_hash`, and confirms `server_signature` validates against the
issuing server secret. -/
def verifyProof (secret : String) (pr : Proof) : Bool :=
  sha256Hex (serializeProofPayload pr.payload) == pr.proof_hash
  && hmacSha256Hex secret pr.proof_hash == pr.server_signature

/-- `POST /agents/:agentId/proof` (`routes/backups.ts`, `agentRoutes`):
address check, owner-only guard (note the source compares the normalized id
with the authenticated id exactly here, without `.toLowerCase()`), agent
lookup, then the proof construction. -/
def proofRoute (cfg : Config) (db : Db) (callerAgentId reqAgentId : String)
    (now : Int) : Except RouteError Proof :=
  if !(isValidAddress reqAgentId) then .error .invalidAgentId
  else
    let normalizedId := normalizeAddress reqAgentId
    if normalizedId != callerAgentId then .error .forbidden
    else
      match getAgent db normalizedId with
      | none => .error .notFound
      | some ag => .ok (generateProof cfg db ag now)

/-- The record stores reachable through the service: any store whose
`backups` table was populated exclusively by runs of the upload route.
The `side` constructor admits every operation that leaves the `backups`
table untouched (registration, status updates, heartbeats, notes). -/
inductive ReachableDb : Db → Prop where
  | base (db : Db) (h : db.backups = fun _ => []) : ReachableDb db
  | upload (db : Db) (sv : JVal → String → Bool) (cfg : Config)
      (agentId : String) (hdr : HeaderInput) (bodyLen : Nat) (now : Int)
      (backupId arweaveTxId : String) (h : ReachableDb db) :
      ReachableDb (uploadBackup sv cfg db agentId hdr bodyLen now backupId arweaveTxId).2
  | side (db db2 : Db) (h : ReachableDb db) (h2 : db2.backups = db.backups) :
      ReachableDb db2

/-- A signature verifier accepting everything (test fixture). -/
def svTrue : JVal → String → Bool := fun _ _ => true

/-- A signature verifier rejecting everything (test fixture). -/
def svFalse : JVal → String → Bool := fun _ _ => false

/-- Configuration fixture. -/
def cfgTest : Config :=
  { backupSizeLimit := 1000, chainId := 84532,
    contractAddress := "0xc0ffee", jwtSecret := "sekret" }

/-- User fixture. -/
def userU1 : UserRec :=
  { github_id := "u1", github_username := "alice", github_created_at := "2020-01-01", created_at := 10 }

/-- A LIVING agent fixture. -/
def agentA : AgentRec :=
  { agent_id := "0xaaaaaaaaaaaaaaaaaaaaaaaaaaaaaaaaaaaaaaaa"
    github_id := "u1"
    recovery_pubkey := "0x1111111111111111111111111111111111111111111111111111111111111111"
    manifest_hash := "0x2222222222222222222222222222222222222222222222222222222222222222"
    manifest_version := 1
    registered_at := 100
    status := "LIVING" }

/-- A FALLEN agent fixture. -/
def agentFallen : AgentRec :=
  { agentA with
    agent_id := "0xffffffffffffffffffffffffffffffffffffffff"
    github_id := "u2"
    status := "FALLEN" }

/-- Trust-score row fixture. -/
def trustA : TrustRec :=
  { agent_id := agentA.agent_id, score := 37, level := "VERIFIED",
    unique_attesters := 1, computed_at := 900 }

/-- Store fixture: two agents, one trust row, no backups. -/
def dbTest : Db :=
  { agents := [agentA, agentFallen]
    users := fun g => if g == "u1" then some userU1 else none
    backups := fun _ => []
    heartbeats := fun _ => []
    trust := fun a => if a == agentA.agent_id then some trustA else none
    notes := [] }

/-- An accepted backup row fixture for `agentA`, received at time 1000. -/
def backupB1 : BackupRec :=
  { id := "b1", agent_id := agentA.agent_id, arweave_tx_id := "t1",
    backup_seq := 1, agent_timestamp := 900, received_at := 1000,
    size_bytes := 10, manifest_hash := "m" }

/-- Store fixture: `dbTest` with one accepted backup for `agentA`. -/
def dbWithBackup : Db :=
  { dbTest with
    backups := fun a => if a == agentA.agent_id then [backupB1] else [] }

/-- A backup header for `agentA` that passes `validateBackupHeader`: every
field the validator checks is present and well-typed, while
`manifest_version` and `prev_backup_hash` are absent. -/
def goodHeaderA : JVal :=
  .obj
    [("agent_id", .str "0xaaaaaaaaaaaaaaaaaaaaaaaaaaaaaaaaaaaaaaaa"),
     ("backup_id", .str "backup-1"),
     ("backup_seq", .num 1),
     ("timestamp", .num 950),
     ("manifest_hash", .str "0x2222222222222222222222222222222222222222222222222222222222222222"),
     ("files", .obj []),
     ("wrapped_keys", .obj [("recovery", .str "wrapRecovery"), ("recall", .str "wrapRecall")]),
     ("signature", .str "sigBytes")]

/-- The same well-formed header shape for the FALLEN agent fixture. -/
def headerFallen : JVal :=
  .obj
    [("agent_id", .str "0xffffffffffffffffffffffffffffffffffffffff"),
     ("backup_id", .str "backup-f"),
     ("backup_seq", .num 1),
     ("timestamp", .num 950),
     ("manifest_hash", .str "0x2222222222222222222222222222222222222222222222222222222222222222"),
     ("files", .obj []),
     ("wrapped_keys", .obj [("recovery", .str "wrapRecovery"), ("recall", .str "wrapRecall")]),
     ("signature", .str "sigBytes")]

/-- GitHub auth fixture. -/
def authU1 : GithubAuth := { ty := "github", githubId := "u1" }

/-- Store fixture for registration: the user exists, no agents yet. -/
def dbReg : Db :=
  { agents := []
    users := fun g => if g == "u1" then some userU1 else none
    backups := fun _ => []
    heartbeats := fun _ => []
    trust := fun _ => none
    notes := [] }

/-- Registration body fixture: the caller supplies this agent id. -/
def regBody1 : RegBody :=
  { agentId := "0x1111111111111111111111111111111111111111"
    recoveryPubKey := "0x1111111111111111111111111111111111111111111111111111111111111111"
    manifestHash := "0x2222222222222222222222222222222222222222222222222222222222222222"
    manifestVersion := 1 }

/-- Registration body fixture: identical except for a different
caller-supplied agent id. -/
def regBody2 : RegBody :=
  { regBody1 with agentId := "0x3333333333333333333333333333333333333333" }

/-- Attestation-note fixture. -/
def noteN1 : NoteRec := { hash := "hash1", content := "content one", created_at := 5 }

/-- A second note with the same content hash but different content and
creation time. -/
def noteN2 : NoteRec := { hash := "hash1", content := "other content", created_at := 9 }

/-- The proof payload of the fixture run, with `trust_score` flipped and
nothing re-signed. -/
def tamperedPayload : ProofPayload :=
  { generateProofPayload cfgTest dbTest agentA 1234 with trust_score := 999 }


section UploadLemmas

variable (sv : JVal → String → Bool) (cfg : Config) (db : Db) (agentId : String)
variable (hdr : HeaderInput) (bodyLen : Nat) (now : Int) (backupId arweaveTxId : String)

/-- Every run of the upload route either fails leaving the store untouched,
or passed every check and executed the accept branch. -/
theorem upload_cases :
    (∃ e, uploadBackup sv cfg db agentId hdr bodyLen now backupId arweaveTxId
        = (Except.error e, db)) ∨
    (∃ j, hdr = .parsed j ∧ validateBackupHeader j = none ∧
      (∃ ag, getAgent db agentId = some ag ∧
        (ag.status = "LIVING" ∨ ag.status = "RETURNED")) ∧
      uploadBackup sv cfg db agentId hdr bodyLen now backupId arweaveTxId
        = acceptUpload db agentId j bodyLen now backupId arweaveTxId) := by
  cases hdr with
  | missing => exact Or.inl ⟨UploadError.missingHeader, rfl⟩
  | unparseable => exact Or.inl ⟨UploadError.badHeaderEncoding, rfl⟩
  | parsed j =>
    simp only [uploadBackup]
    split
    next e hval => exact Or.inl ⟨_, rfl⟩
    next hval =>
      split
      next h1 => exact Or.inl ⟨_, rfl⟩
      next h1 =>
        split
        next h2 => exact Or.inl ⟨_, rfl⟩
        next h2 =>
          split
          next h3 => exact Or.inl ⟨_, rfl⟩
          next h3 =>
            split
            next h4 => exact Or.inl ⟨_, rfl⟩
            next h4 =>
              split
              next hag => exact Or.inl ⟨_, rfl⟩
              next ag hag =>
                split
                next h5 => exact Or.inl ⟨_, rfl⟩
                next h5 =>
                  have hst : ag.status = "LIVING" ∨ ag.status = "RETURNED" := by
                    simp only [Bool.and_eq_true, bne_iff_ne, ne_eq] at h5
                    rcases not_and_or.mp h5 with h | h
                    · exact Or.inl (not_not.mp h)
                    · exact Or.inr (not_not.mp h)
                  split
                  next latest hlb =>
                    split
                    next h6 => exact Or.inl ⟨_, rfl⟩
                    next h6 => exact Or.inr ⟨j, rfl, hval, ⟨ag, hag, hst⟩, rfl⟩
                  next hlb => exact Or.inr ⟨j, rfl, hval, ⟨ag, hag, hst⟩, rfl⟩

end UploadLemmas

/-- A failed upload returns the store unchanged: every error branch of the
route returns before `createBackup`. -/
theorem upload_error_db (sv : JVal → String → Bool) (cfg : Config) (db : Db)
    (agentId : String) (hdr : HeaderInput) (bodyLen : Nat) (now : Int)
    (backupId arweaveTxId : String) (e : UploadError)
    (h : (uploadBackup sv cfg db agentId hdr bodyLen now backupId arweaveTxId).1
        = Except.error e) :
    (uploadBackup sv cfg db agentId hdr bodyLen now backupId arweaveTxId).2 = db := by
  rcases upload_cases sv cfg db agentId hdr bodyLen now backupId arweaveTxId with
    ⟨e2, hq⟩ | ⟨j, hj, hv, hok, hq⟩
  · rw [hq]
  · rw [hq] at h
    simp [acceptUpload] at h

/-- A successful upload executed the accept branch on a validated header. -/
theorem upload_ok_accept (sv : JVal → String → Bool) (cfg : Config) (db : Db)
    (agentId : String) (hdr : HeaderInput) (bodyLen : Nat) (now : Int)
    (backupId arweaveTxId : String) (r : UploadResult)
    (h : (uploadBackup sv cfg db agentId hdr bodyLen now backupId arweaveTxId).1
        = Except.ok r) :
    ∃ j, hdr = .parsed j ∧ validateBackupHeader j = none ∧
      uploadBackup sv cfg db agentId hdr bodyLen now backupId arweaveTxId
        = acceptUpload db agentId j bodyLen now backupId arweaveTxId := by
  rcases upload_cases sv cfg db agentId hdr bodyLen now backupId arweaveTxId with
    ⟨e, hq⟩ | ⟨j, hj, hv, hok, hq⟩
  · rw [hq] at h
    simp at h
  · exact ⟨j, hj, hv, hq⟩

/-- Claim C9: backup upload is atomic on failure — a request rejected for
any reason (missing or malformed header, failed validation, agent-id
mismatch, bad signature, empty or oversize body, unknown agent, wrong
status, daily limit) leaves the store unchanged, so no backup record is
created and the per-agent backup count and latest backup are unchanged. -/
theorem claim_C9 (sv : JVal → String → Bool) (cfg : Config) (db : Db)
    (agentId : String) (hdr : HeaderInput) (bodyLen : Nat) (now : Int)
    (backupId arweaveTxId : String) (e : UploadError)
    (h : (uploadBackup sv cfg db agentId hdr bodyLen now backupId arweaveTxId).1
        = Except.error e) :
    (uploadBackup sv cfg db agentId hdr bodyLen now backupId arweaveTxId).2 = db ∧
    getBackupCount (uploadBackup sv cfg db agentId hdr bodyLen now backupId arweaveTxId).2 agentId
      = getBackupCount db agentId ∧
    getLatestBackup (uploadBackup sv cfg db agentId hdr bodyLen now backupId arweaveTxId).2 agentId
      = getLatestBackup db agentId := by
  have h2 := upload_error_db sv cfg db agentId hdr bodyLen now backupId arweaveTxId e h
  exact ⟨h2, by rw [h2], by rw [h2]⟩

/-- Witness for claim C9 at a concrete rejected request: the fixture store
with a signature verifier that rejects, so the upload fails, and the store
is returned unchanged. -/
theorem claim_C9_witness :
    (uploadBackup svFalse cfgTest dbTest agentA.agent_id (.parsed goodHeaderA)
        10 2000 "b9" "t9").1 = Except.error UploadError.badSignature ∧
    (uploadBackup svFalse cfgTest dbTest agentA.agent_id (.parsed goodHeaderA)
        10 2000 "b9" "t9").2 = dbTest := by
  have h := claim_C9 svFalse cfgTest dbTest agentA.agent_id (.parsed goodHeaderA)
    10 2000 "b9" "t9" UploadError.badSignature (by rfl)
  exact ⟨by rfl, h.1⟩

/-- Claim C6: a backup upload is accepted only when the agent exists with
status LIVING or RETURNED; when the agent is absent, or its status is
neither (in particular FALLEN or UNREGISTERED), the upload fails with an
error and no backup record is created. -/
theorem claim_C6 (sv : JVal → String → Bool) (cfg : Config) (db : Db)
    (agentId : String) (hdr : HeaderInput) (bodyLen : Nat) (now : Int)
    (backupId arweaveTxId : String) :
    (∀ r, (uploadBackup sv cfg db agentId hdr bodyLen now backupId arweaveTxId).1
        = Except.ok r →
      ∃ ag, getAgent db agentId = some ag ∧
        (ag.status = "LIVING" ∨ ag.status = "RETURNED")) ∧
    ((getAgent db agentId = none ∨
      (∃ ag, getAgent db agentId = some ag ∧
        ag.status ≠ "LIVING" ∧ ag.status ≠ "RETURNED")) →
      (∃ e, (uploadBackup sv cfg db agentId hdr bodyLen now backupId arweaveTxId).1
          = Except.error e) ∧
      (uploadBackup sv cfg db agentId hdr bodyLen now backupId arweaveTxId).2 = db) := by
  constructor
  · intro r h
    rcases upload_cases sv cfg db agentId hdr bodyLen now backupId arweaveTxId with
      ⟨e, hq⟩ | ⟨j, hj, hv, hok, hq⟩
    · rw [hq] at h
      simp at h
    · exact hok
  · intro hbad
    rcases upload_cases sv cfg db agentId hdr bodyLen now backupId arweaveTxId with
      ⟨e, hq⟩ | ⟨j, hj, hv, ⟨ag, hag, hst⟩, hq⟩
    · exact ⟨⟨e, by rw [hq]⟩, by rw [hq]⟩
    · exfalso
      rcases hbad with hnone | ⟨ag2, hag2, hL, hR⟩
      · rw [hag] at hnone
        exact Option.noConfusion hnone
      · rw [hag] at hag2
        have heq : ag = ag2 := by injection hag2
        rcases hst with h | h
        · exact hL (heq ▸ h)
        · exact hR (heq ▸ h)

/-- Witness for claim C6 at the FALLEN fixture agent: the upload fails and
the store is unchanged. -/
theorem claim_C6_witness :
    (∃ ag, getAgent dbTest agentFallen.agent_id = some ag ∧
      ag.status ≠ "LIVING" ∧ ag.status ≠ "RETURNED") ∧
    (∃ e, (uploadBackup svTrue cfgTest dbTest agentFallen.agent_id
        (.parsed headerFallen) 10 2000 "b6" "t6").1 = Except.error e) ∧
    (uploadBackup svTrue cfgTest dbTest agentFallen.agent_id
        (.parsed headerFallen) 10 2000 "b6" "t6").2 = dbTest := by
  have hb : ∃ ag, getAgent dbTest agentFallen.agent_id = some ag ∧
      ag.status ≠ "LIVING" ∧ ag.status ≠ "RETURNED" :=
    ⟨agentFallen, by decide, by decide, by decide⟩
  have h := (claim_C6 svTrue cfgTest dbTest agentFallen.agent_id
    (.parsed headerFallen) 10 2000 "b6" "t6").2 (Or.inr hb)
  exact ⟨hb, h.1, h.2⟩

/-- The field checks succeed exactly when each checked field is present
with the right type. -/
theorem validateFields_none_iff (j : JVal) :
    validateBackupHeaderFields j = none ↔
      (isNonemptyStrField j "agent_id" && isNonemptyStrField j "backup_id"
       && isNumField j "backup_seq" && isNumField j "timestamp"
       && isStrField j "manifest_hash" && isObjField j "files"
       && isObjField j "wrapped_keys"
       && (isStrSubField j "wrapped_keys" "recovery"
           && isStrSubField j "wrapped_keys" "recall")
       && isNonemptyStrField j "signature") = true := by
  unfold validateBackupHeaderFields
  cases hb1 : isNonemptyStrField j "agent_id"
  case false => simp [hb1]
  case true =>
  cases hb2 : isNonemptyStrField j "backup_id"
  case false => simp [hb1, hb2]
  case true =>
  cases hb3 : isNumField j "backup_seq"
  case false => simp [hb1, hb2, hb3]
  case true =>
  cases hb4 : isNumField j "timestamp"
  case false => simp [hb1, hb2, hb3, hb4]
  case true =>
  cases hb5 : isStrField j "manifest_hash"
  case false => simp [hb1, hb2, hb3, hb4, hb5]
  case true =>
  cases hb6 : isObjField j "files"
  case false => simp [hb1, hb2, hb3, hb4, hb5, hb6]
  case true =>
  cases hb7 : isObjField j "wrapped_keys"
  case false => simp [hb1, hb2, hb3, hb4, hb5, hb6, hb7]
  case true =>
  cases hb8 : isStrSubField j "wrapped_keys" "recovery"
  case false => simp [hb1, hb2, hb3, hb4, hb5, hb6, hb7, hb8]
  case true =>
  cases hb8b : isStrSubField j "wrapped_keys" "recall"
  case false => simp [hb1, hb2, hb3, hb4, hb5, hb6, hb7, hb8, hb8b]
  case true =>
  cases hb9 : isNonemptyStrField j "signature"
  case false => simp [hb1, hb2, hb3, hb4, hb5, hb6, hb7, hb8, hb8b, hb9]
  case true => simp [hb1, hb2, hb3, hb4, hb5, hb6, hb7, hb8, hb8b, hb9]

/-- The validator accepts exactly the structurally complete headers. -/
theorem validateBackupHeader_none_iff (j : JVal) :
    validateBackupHeader j = none ↔ headerStructurallyValid j = true := by
  cases j with
  | null => simp [validateBackupHeader, headerStructurallyValid]
  | bool b => simp [validateBackupHeader, headerStructurallyValid]
  | num n => simp [validateBackupHeader, headerStructurallyValid]
  | str s => simp [validateBackupHeader, headerStructurallyValid]
  | obj fields =>
    rw [show validateBackupHeader (.obj fields)
        = validateBackupHeaderFields (.obj fields) from rfl,
      validateFields_none_iff]
    simp only [headerStructurallyValid, Bool.true_and, Bool.and_eq_true]
    tauto
  | arr elems =>
    rw [show validateBackupHeader (.arr elems)
        = validateBackupHeaderFields (.arr elems) from rfl,
      validateFields_none_iff]
    simp only [headerStructurallyValid, Bool.true_and, Bool.and_eq_true]
    tauto

/-- Claim C1 (amended): a decoded backup header is rejected with a
validation error exactly when one of the fields the route validates
(agent_id, backup_id, backup_seq, timestamp, manifest_hash, files,
wrapped_keys.recovery, wrapped_keys.recall, signature) is missing or
mistyped — `manifest_version` and `prev_backup_hash` are not checked —
and such a rejection happens before any signature verification: the
outcome is the same for every signature verifier and the store is
untouched. -/
theorem claim_C1 (j : JVal) :
    (validateBackupHeader j = none ↔ headerStructurallyValid j = true) ∧
    ∀ (e : String), validateBackupHeader j = some e →
      ∀ (sv : JVal → String → Bool) (cfg : Config) (db : Db) (agentId : String)
        (bodyLen : Nat) (now : Int) (backupId arweaveTxId : String),
        uploadBackup sv cfg db agentId (.parsed j) bodyLen now backupId arweaveTxId
          = (Except.error (UploadError.validation e), db) := by
  refine ⟨validateBackupHeader_none_iff j, ?_⟩
  intro e hval sv cfg db agentId bodyLen now backupId arweaveTxId
  simp only [uploadBackup, hval]

/-- Witness for claim C1 at the empty-object header, which fails the very
first field check; two different signature verifiers both never run and
the route rejects with the same validation error. -/
theorem claim_C1_witness :
    validateBackupHeader (JVal.obj [])
      = some "Missing or invalid field: agent_id (string)" ∧
    uploadBackup svTrue cfgTest dbTest agentA.agent_id (.parsed (JVal.obj []))
        10 2000 "b1w" "t1w"
      = (Except.error (UploadError.validation
          "Missing or invalid field: agent_id (string)"), dbTest) ∧
    uploadBackup svFalse cfgTest dbTest agentA.agent_id (.parsed (JVal.obj []))
        10 2000 "b1w" "t1w"
      = (Except.error (UploadError.validation
          "Missing or invalid field: agent_id (string)"), dbTest) := by
  have h1 := (claim_C1 (JVal.obj [])).2 "Missing or invalid field: agent_id (string)"
    (by rfl) svTrue cfgTest dbTest agentA.agent_id 10 2000 "b1w" "t1w"
  have h2 := (claim_C1 (JVal.obj [])).2 "Missing or invalid field: agent_id (string)"
    (by rfl) svFalse cfgTest dbTest agentA.agent_id 10 2000 "b1w" "t1w"
  exact ⟨by rfl, h1, h2⟩

/-- Counterexample to claim C1 as stated: `goodHeaderA` has no
`manifest_version` and no `prev_backup_hash` field, yet the validator
accepts it and the upload goes through to acceptance (sequence 1) rather
than being rejected with a validation error. -/
theorem claim_C1_counterexample :
    (getField goodHeaderA "manifest_version").isNone = true ∧
    (getField goodHeaderA "prev_backup_hash").isNone = true ∧
    validateBackupHeader goodHeaderA = none ∧
    ((uploadBackup svTrue cfgTest dbTest agentA.agent_id (.parsed goodHeaderA)
        10 2000 "b1c" "t1c").1.toOption.map (fun r => r.backup_seq)) = some 1 := by
  refine ⟨by rfl, by rfl, by rfl, by rfl⟩

/-- Claim C2: for an agent with an accepted backup, an otherwise valid
upload attempt strictly less than 86400 seconds after the receipt time of
the latest accepted backup fails with a rate-limit error carrying the
remaining wait (in hours, rounded up), and an attempt at least 86400
seconds after that receipt time is accepted; the window is measured from
the stored `received_at` of the latest backup, not from calendar
boundaries. -/
theorem claim_C2 (sv : JVal → String → Bool) (cfg : Config) (db : Db)
    (agentId : String) (j : JVal) (bodyLen : Nat) (now : Int)
    (backupId arweaveTxId : String) (lb : BackupRec) (ag : AgentRec)
    (hlb : getLatestBackup db agentId = some lb)
    (hval : validateBackupHeader j = none)
    (hmatch : lowerStr (strField j "agent_id") = lowerStr agentId)
    (hsv : sv j agentId = true)
    (hbody : bodyLen ≠ 0)
    (hsize : bodyLen ≤ cfg.backupSizeLimit)
    (hag : getAgent db agentId = some ag)
    (hst : ag.status = "LIVING" ∨ ag.status = "RETURNED") :
    (now - lb.received_at < 86400 →
      (uploadBackup sv cfg db agentId (.parsed j) bodyLen now backupId arweaveTxId).1
        = Except.error (UploadError.rateLimit
            (jsCeilDiv (86400 - (now - lb.received_at)) 3600))) ∧
    (86400 ≤ now - lb.received_at →
      (uploadBackup sv cfg db agentId (.parsed j) bodyLen now backupId arweaveTxId).1
        = Except.ok
            { backup_id := backupId
              backup_seq := getNextBackupSeq db agentId
              arweave_tx_id := arweaveTxId
              size_bytes := bodyLen
              received_at := now }) := by
  have h1 : (lowerStr (strField j "agent_id") != lowerStr agentId) = false := by
    simp [hmatch]
  have h2 : (!sv j agentId) = false := by simp [hsv]
  have h4 : ¬ (bodyLen > cfg.backupSizeLimit) := not_lt.mpr hsize
  have h5 : (ag.status != "LIVING" && ag.status != "RETURNED") = false := by
    rcases hst with h | h <;> simp [h]
  constructor
  · intro hlt
    simp [uploadBackup, hval, h1, h2, hbody, h4, hag, h5, hlb, hlt]
  · intro hge
    have h6 : ¬ (now - lb.received_at < 86400) := not_lt.mpr hge
    simp [uploadBackup, hval, h1, h2, hbody, h4, hag, h5, hlb, h6,
      acceptUpload, mkBackupRec]

/-- Witness for claim C2 on the fixture store whose latest accepted backup
was received at time 1000: an attempt at time 1100 is rejected with the
rate limit, an attempt at time 87400 (exactly 86400 seconds later) is
accepted. -/
theorem claim_C2_witness :
    getLatestBackup dbWithBackup agentA.agent_id = some backupB1 ∧
    (1100 : Int) - backupB1.received_at < 86400 ∧
    (uploadBackup svTrue cfgTest dbWithBackup agentA.agent_id
        (.parsed goodHeaderA) 10 1100 "b2w" "t2w").1
      = Except.error (UploadError.rateLimit
          (jsCeilDiv (86400 - ((1100 : Int) - backupB1.received_at)) 3600)) ∧
    (uploadBackup svTrue cfgTest dbWithBackup agentA.agent_id
        (.parsed goodHeaderA) 10 87400 "b2w" "t2w").1
      = Except.ok
          { backup_id := "b2w"
            backup_seq := getNextBackupSeq dbWithBackup agentA.agent_id
            arweave_tx_id := "t2w"
            size_bytes := 10
            received_at := 87400 } := by
  refine ⟨by rfl, by decide, ?_, ?_⟩
  · exact (claim_C2 svTrue cfgTest dbWithBackup agentA.agent_id goodHeaderA
      10 1100 "b2w" "t2w" backupB1 agentA (by rfl) (by rfl) (by rfl) (by rfl)
      (by decide) (by decide) (by rfl) (Or.inl rfl)).1 (by decide)
  · exact (claim_C2 svTrue cfgTest dbWithBackup agentA.agent_id goodHeaderA
      10 87400 "b2w" "t2w" backupB1 agentA (by rfl) (by rfl) (by rfl) (by rfl)
      (by decide) (by decide) (by rfl) (Or.inl rfl)).2 (by decide)

/-- The backups table after `createBackup`, read back per agent. -/
theorem createBackup_backups_eq (db : Db) (b : BackupRec) (a : String) :
    (createBackup db b).backups a
      = if a = b.agent_id then db.backups a ++ [b] else db.backups a := rfl

/-- `maxBySeq` on a snoc list steps the fold once. -/
theorem maxBySeq_concat (l : List BackupRec) (b : BackupRec) :
    maxBySeq (l ++ [b])
      = match maxBySeq l with
        | none => some b
        | some m => if b.backup_seq ≥ m.backup_seq then some b else some m := by
  unfold maxBySeq
  rw [List.foldl_append]
  rfl

/-- On a backup list whose sequence numbers are exactly `1, …, n`, the
maximal-sequence row is the one with sequence `n` (or nothing when the
list is empty). -/
theorem maxBySeq_of_range (l : List BackupRec)
    (h : l.map (fun b => b.backup_seq) = List.range' 1 l.length) :
    (l = [] ∧ maxBySeq l = none) ∨
    (∃ m, maxBySeq l = some m ∧ m.backup_seq = l.length) := by
  induction l using List.reverseRecOn with
  | nil => exact Or.inl ⟨rfl, rfl⟩
  | append_singleton l b ih =>
    right
    rw [List.map_append, List.length_append] at h
    have hlen : (l.map (fun b => b.backup_seq)).length = (List.range' 1 l.length).length := by
      simp
    rw [show l.length + [b].length = l.length + 1 from rfl,
      List.range'_1_concat] at h
    rcases List.append_inj h hlen with ⟨hmap, hb⟩
    have hbseq : b.backup_seq = 1 + l.length := by
      simpa using congrArg (fun x => x.headD 0) hb
    rcases ih hmap with ⟨hnil, hmax⟩ | ⟨m, hmax, hmseq⟩
    · subst hnil
      exact ⟨b, by simp [maxBySeq], by simp [hbseq]⟩
    · refine ⟨b, ?_, ?_⟩
      · rw [maxBySeq_concat, hmax]
        have : b.backup_seq ≥ m.backup_seq := by omega
        simp [this]
      · simp [hbseq]
        omega

/-- Every store reachable through the service keeps, for every agent, the
stored backup sequence numbers exactly `1, 2, …, n` in insertion order. -/
theorem reachable_seq_range (db : Db) (h : ReachableDb db) :
    ∀ a, (db.backups a).map (fun b => b.backup_seq)
      = List.range' 1 (db.backups a).length := by
  induction h with
  | base db h =>
    intro a
    rw [h]
    rfl
  | side db db2 h h2 ih =>
    intro a
    rw [h2]
    exact ih a
  | upload db sv cfg agentId hdr bodyLen now backupId arweaveTxId h ih =>
    intro a
    rcases upload_cases sv cfg db agentId hdr bodyLen now backupId arweaveTxId with
      ⟨e, hq⟩ | ⟨j, hj, hv, hok, hq⟩
    · rw [hq]
      exact ih a
    · rw [hq]
      have hacc : (acceptUpload db agentId j bodyLen now backupId arweaveTxId).2
          = createBackup db (mkBackupRec db agentId j bodyLen now backupId arweaveTxId) := rfl
      rw [hacc, createBackup_backups_eq,
        show (mkBackupRec db agentId j bodyLen now backupId arweaveTxId).agent_id
          = agentId from rfl]
      by_cases ha : a = agentId
      · subst ha
        rw [if_pos rfl, List.map_append, List.length_append, ih a]
        have hnext : getNextBackupSeq db a = (db.backups a).length + 1 := by
          rcases maxBySeq_of_range (db.backups a) (ih a) with ⟨hnil, hmax⟩ | ⟨m, hmax, hmseq⟩
          · simp only [getNextBackupSeq, getLatestBackup, hmax, hnil]
            rfl
          · simp only [getNextBackupSeq, getLatestBackup, hmax]
            rw [hmseq]
        simp only [List.map_cons, List.map_nil, List.length_cons, List.length_nil,
          Nat.zero_add]
        rw [show (mkBackupRec db a j bodyLen now backupId arweaveTxId).backup_seq
            = getNextBackupSeq db a from rfl, hnext, List.range'_1_concat]
        simp [Nat.add_comm]
      · rw [if_neg ha]
        exact ih a

/-- Claim C3: in every store reachable through the service, each agent's
first accepted backup has sequence number 1 and every later accepted
backup has exactly the previous stored maximum plus 1, so the stored
per-agent sequence numbers are `1, 2, …, n` — strictly increasing with no
gaps — and the next assigned number is always `n + 1`. -/
theorem claim_C3 (db : Db) (h : ReachableDb db) :
    (∀ a, (db.backups a).map (fun b => b.backup_seq)
      = List.range' 1 (db.backups a).length) ∧
    (∀ a, getNextBackupSeq db a = (db.backups a).length + 1) := by
  have hr := reachable_seq_range db h
  refine ⟨hr, fun a => ?_⟩
  rcases maxBySeq_of_range (db.backups a) (hr a) with ⟨hnil, hmax⟩ | ⟨m, hmax, hmseq⟩
  · simp only [getNextBackupSeq, getLatestBackup, hmax, hnil]
    rfl
  · simp only [getNextBackupSeq, getLatestBackup, hmax]
    rw [hmseq]

/-- Witness for claim C3: starting from the fixture store with no backups,
one accepted upload yields the sequence list `[1]` and the next sequence
number 2. -/
theorem claim_C3_witness :
    ReachableDb (uploadBackup svTrue cfgTest dbTest agentA.agent_id
      (.parsed goodHeaderA) 10 2000 "b3" "t3").2 ∧
    (((uploadBackup svTrue cfgTest dbTest agentA.agent_id
        (.parsed goodHeaderA) 10 2000 "b3" "t3").2.backups agentA.agent_id).map
      (fun b => b.backup_seq)) = [1] ∧
    getNextBackupSeq (uploadBackup svTrue cfgTest dbTest agentA.agent_id
      (.parsed goodHeaderA) 10 2000 "b3" "t3").2 agentA.agent_id = 2 := by
  have hr1 : ReachableDb (uploadBackup svTrue cfgTest dbTest agentA.agent_id
      (.parsed goodHeaderA) 10 2000 "b3" "t3").2 :=
    ReachableDb.upload dbTest svTrue cfgTest agentA.agent_id
      (.parsed goodHeaderA) 10 2000 "b3" "t3" (ReachableDb.base dbTest rfl)
  have h := claim_C3 _ hr1
  refine ⟨hr1, ?_, ?_⟩
  · rw [h.1 agentA.agent_id]
    rfl
  · rw [h.2 agentA.agent_id]
    rfl

/-- Claim C7: the trust level is a pure step function of the trust score —
scores below 20 map to UNVERIFIED, scores in [20,50) to VERIFIED, scores
in [50,100) to ESTABLISHED, and scores at or above 100 to PILLAR. -/
theorem claim_C7 (s : ℚ) :
    (s < 20 → trustLevelForScore s = "UNVERIFIED") ∧
    (20 ≤ s → s < 50 → trustLevelForScore s = "VERIFIED") ∧
    (50 ≤ s → s < 100 → trustLevelForScore s = "ESTABLISHED") ∧
    (100 ≤ s → trustLevelForScore s = "PILLAR") := by
  unfold trustLevelForScore TRUST_THRESHOLDS
  refine ⟨?_, ?_, ?_, ?_⟩
  · intro h
    rw [if_neg (by simp only []; linarith), if_neg (by simp only []; linarith),
      if_neg (by simp only []; linarith)]
  · intro h1 h2
    rw [if_neg (by simp only []; linarith), if_neg (by simp only []; linarith),
      if_pos (by simp only []; linarith)]
  · intro h1 h2
    rw [if_neg (by simp only []; linarith), if_pos (by simp only []; linarith)]
  · intro h
    rw [if_pos (by simp only []; linarith)]

/-- Witness for claim C7 at one concrete score in each band. -/
theorem claim_C7_witness :
    trustLevelForScore 10 = "UNVERIFIED" ∧
    trustLevelForScore 37 = "VERIFIED" ∧
    trustLevelForScore 70 = "ESTABLISHED" ∧
    trustLevelForScore 150 = "PILLAR" := by
  refine ⟨(claim_C7 10).1 (by norm_num),
    (claim_C7 37).2.1 (by norm_num) (by norm_num),
    (claim_C7 70).2.2.1 (by norm_num) (by norm_num),
    (claim_C7 150).2.2.2 (by norm_num)⟩

/-- Claim C8: storing an attestation note is idempotent under its content
hash — a second insert with the same hash (whatever its content) leaves
the store exactly as after the first, and once a hash is absent and then
stored, reading that hash returns the originally stored note unchanged. -/
theorem claim_C8 (db : Db) (n m : NoteRec) :
    (m.hash = n.hash →
      createAttestationNote (createAttestationNote db n) m
        = createAttestationNote db n) ∧
    (getAttestationNote db n.hash = none →
      getAttestationNote (createAttestationNote db n) n.hash = some n) := by
  constructor
  · intro hm
    by_cases hg : (db.notes.find? (fun r => r.hash == n.hash)).isSome = true
    · have h1 : createAttestationNote db n = db := by
        unfold createAttestationNote
        rw [if_pos hg]
      rw [h1]
      unfold createAttestationNote
      rw [hm, if_pos hg]
    · have h1 : createAttestationNote db n = { db with notes := db.notes ++ [n] } := by
        unfold createAttestationNote
        rw [if_neg hg]
      rw [h1]
      conv_lhs => unfold createAttestationNote
      rw [hm]
      have hfind : ((({ db with notes := db.notes ++ [n] } : Db).notes.find?
          (fun r => r.hash == n.hash)).isSome) = true := by
        show ((db.notes ++ [n]).find? (fun r => r.hash == n.hash)).isSome = true
        rw [List.find?_append]
        have hone : List.find? (fun r => r.hash == n.hash) [n] = some n := by simp
        rw [hone]
        cases db.notes.find? (fun r => r.hash == n.hash) <;> rfl
      rw [if_pos hfind]
  · intro hn
    have hg : (db.notes.find? (fun r => r.hash == n.hash)).isSome = false := by
      unfold getAttestationNote at hn
      rw [hn]
      rfl
    unfold createAttestationNote
    rw [if_neg (by simp [hg])]
    unfold getAttestationNote
    show ((db.notes ++ [n]).find? (fun r => r.hash == n.hash)) = some n
    rw [List.find?_append]
    unfold getAttestationNote at hn
    rw [hn]
    simp

/-- Witness for claim C8 on concrete notes sharing a hash. -/
theorem claim_C8_witness :
    noteN2.hash = noteN1.hash ∧
    createAttestationNote (createAttestationNote dbTest noteN1) noteN2
      = createAttestationNote dbTest noteN1 ∧
    getAttestationNote dbTest noteN1.hash = none ∧
    getAttestationNote (createAttestationNote dbTest noteN1) noteN1.hash
      = some noteN1 := by
  exact ⟨rfl, (claim_C8 dbTest noteN1 noteN2).1 rfl, rfl,
    (claim_C8 dbTest noteN1 noteN2).2 rfl⟩

/-- Claim C10: an authenticated agent can read only its own backup
history — when the requested agent id differs from the caller's identity
(after normalisation, compared case-insensitively), listing backups,
fetching the latest backup, and generating an identity proof all return an
error and no data, and on a well-formed address the error is precisely the
authorization failure. -/
theorem claim_C10 (cfg : Config) (db : Db) (callerAgentId reqAgentId : String)
    (limit : Nat) (now : Int)
    (h : lowerStr (normalizeAddress reqAgentId) ≠ lowerStr callerAgentId) :
    ((listBackupsRoute db callerAgentId reqAgentId limit).toOption = none ∧
     (latestBackupRoute db callerAgentId reqAgentId).toOption = none ∧
     (proofRoute cfg db callerAgentId reqAgentId now).toOption = none) ∧
    (isValidAddress reqAgentId = true →
      listBackupsRoute db callerAgentId reqAgentId limit
        = Except.error RouteError.forbidden ∧
      latestBackupRoute db callerAgentId reqAgentId
        = Except.error RouteError.forbidden ∧
      proofRoute cfg db callerAgentId reqAgentId now
        = Except.error RouteError.forbidden) := by
  have hb : (lowerStr (normalizeAddress reqAgentId) != lowerStr callerAgentId) = true :=
    bne_iff_ne.mpr h
  have hne : normalizeAddress reqAgentId ≠ callerAgentId := fun hc => h (by rw [hc])
  have hb2 : (normalizeAddress reqAgentId != callerAgentId) = true := bne_iff_ne.mpr hne
  have hmain : isValidAddress reqAgentId = true →
      listBackupsRoute db callerAgentId reqAgentId limit
        = Except.error RouteError.forbidden ∧
      latestBackupRoute db callerAgentId reqAgentId
        = Except.error RouteError.forbidden ∧
      proofRoute cfg db callerAgentId reqAgentId now
        = Except.error RouteError.forbidden := by
    intro hv
    refine ⟨?_, ?_, ?_⟩
    · simp [listBackupsRoute, hv, hb]
    · simp [latestBackupRoute, hv, hb]
    · simp [proofRoute, hv, hb2]
  refine ⟨?_, hmain⟩
  by_cases hv : isValidAddress reqAgentId = true
  · rcases hmain hv with ⟨h1, h2, h3⟩
    rw [h1, h2, h3]
    exact ⟨rfl, rfl, rfl⟩
  · have hv2 : isValidAddress reqAgentId = false := by
      cases hvb : isValidAddress reqAgentId
      · rfl
      · exact absurd hvb hv
    refine ⟨?_, ?_, ?_⟩
    · have : listBackupsRoute db callerAgentId reqAgentId limit
          = Except.error RouteError.invalidAgentId := by
        simp [listBackupsRoute, hv2]
      rw [this]
      rfl
    · have : latestBackupRoute db callerAgentId reqAgentId
          = Except.error RouteError.invalidAgentId := by
        simp [latestBackupRoute, hv2]
      rw [this]
      rfl
    · have : proofRoute cfg db callerAgentId reqAgentId now
          = Except.error RouteError.invalidAgentId := by
        simp [proofRoute, hv2]
      rw [this]
      rfl

/-- Witness for claim C10: a valid requested address that is not the
caller's is rejected with the authorization error on all three routes. -/
theorem claim_C10_witness :
    lowerStr (normalizeAddress "0xbbbbbbbbbbbbbbbbbbbbbbbbbbbbbbbbbbbbbbbb")
      ≠ lowerStr agentA.agent_id ∧
    isValidAddress "0xbbbbbbbbbbbbbbbbbbbbbbbbbbbbbbbbbbbbbbbb" = true ∧
    listBackupsRoute dbTest agentA.agent_id
        "0xbbbbbbbbbbbbbbbbbbbbbbbbbbbbbbbbbbbbbbbb" 30
      = Except.error RouteError.forbidden ∧
    latestBackupRoute dbTest agentA.agent_id
        "0xbbbbbbbbbbbbbbbbbbbbbbbbbbbbbbbbbbbbbbbb"
      = Except.error RouteError.forbidden ∧
    proofRoute cfgTest dbTest agentA.agent_id
        "0xbbbbbbbbbbbbbbbbbbbbbbbbbbbbbbbbbbbbbbbb" 1234
      = Except.error RouteError.forbidden := by
  have h := (claim_C10 cfgTest dbTest agentA.agent_id
    "0xbbbbbbbbbbbbbbbbbbbbbbbbbbbbbbbbbbbbbbbb" 30 1234 (by decide)).2 (by decide)
  exact ⟨by decide, by decide, h.1, h.2.1, h.2.2⟩

/-- Claim C5, evaluated against the code: the registration route stores
whatever agent id the caller supplies (normalised), with no signing key or
signature anywhere in the computation — two registrations identical except
for the caller-chosen agent id both succeed and store the two different
caller-chosen ids.  This contradicts the specified invariant that the
agent id is a pure function of the agent's public signing key and never
chosen by the caller. -/
theorem claim_C5_code_eval :
    ((registerAgent dbReg (some authU1) regBody1 500).1.toOption.map
        (fun r => r.agent_id)) = some (normalizeAddress regBody1.agentId) ∧
    ((registerAgent dbReg (some authU1) regBody2 500).1.toOption.map
        (fun r => r.agent_id)) = some (normalizeAddress regBody2.agentId) ∧
    normalizeAddress regBody1.agentId ≠ normalizeAddress regBody2.agentId ∧
    ((getAgent (registerAgent dbReg (some authU1) regBody1 500).2
        (normalizeAddress regBody1.agentId)).map (fun a => a.agent_id))
      = some (normalizeAddress regBody1.agentId) ∧
    ((getAgent (registerAgent dbReg (some authU1) regBody2 500).2
        (normalizeAddress regBody2.agentId)).map (fun a => a.agent_id))
      = some (normalizeAddress regBody2.agentId) := by
  refine ⟨by decide, by decide, by decide, by decide, by decide⟩

/-- Claim C4: the generated identity proof carries exactly the ten
payload fields, in alphabetical key order; its `proof_hash` is the SHA-256
digest of the deterministic JSON serialization of the payload and its
`server_signature` is HMAC-SHA256 of that digest under the server secret;
verification of an unmodified proof succeeds, and any change to the
payload whose serialization hashes differently (i.e. anything short of a
SHA-256 collision) makes verification fail. -/
theorem claim_C4 (cfg : Config) (db : Db) (ag : AgentRec) (now : Int) :
    ((proofFields (generateProof cfg db ag now).payload).map Prod.fst
        = proofPayloadKeys ∧
      sortedStrictAsc proofPayloadKeys = true) ∧
    (generateProof cfg db ag now).proof_hash
      = sha256Hex (serializeProofPayload (generateProof cfg db ag now).payload) ∧
    (generateProof cfg db ag now).server_signature
      = hmacSha256Hex cfg.jwtSecret (generateProof cfg db ag now).proof_hash ∧
    verifyProof cfg.jwtSecret (generateProof cfg db ag now) = true ∧
    (∀ p' : ProofPayload,
      sha256Hex (serializeProofPayload p')
        ≠ sha256Hex (serializeProofPayload (generateProof cfg db ag now).payload) →
      verifyProof cfg.jwtSecret
        { generateProof cfg db ag now with payload := p' } = false) := by
  refine ⟨⟨rfl, by decide⟩, rfl, rfl, ?_, ?_⟩
  · simp [verifyProof, generateProof]
  · intro p' hne
    have hpay : ({ generateProof cfg db ag now with payload := p' } : Proof).payload
        = p' := rfl
    have hhash : ({ generateProof cfg db ag now with payload := p' } : Proof).proof_hash
        = sha256Hex (serializeProofPayload (generateProof cfg db ag now).payload) := rfl
    unfold verifyProof
    rw [hpay, hhash]
    have hb : (sha256Hex (serializeProofPayload p')
        == sha256Hex (serializeProofPayload (generateProof cfg db ag now).payload))
        = false := beq_eq_false_iff_ne.mpr hne
    rw [hb]
    rfl

set_option maxRecDepth 20000 in
set_option maxHeartbeats 2000000 in
/-- Witness for claim C4 on the fixture proof: verification of the
generated proof succeeds, and flipping `trust_score` to 999 without
re-signing changes the digest and makes verification fail. -/
theorem claim_C4_witness :
    verifyProof cfgTest.jwtSecret (generateProof cfgTest dbTest agentA 1234) = true ∧
    sha256Hex (serializeProofPayload tamperedPayload)
      ≠ sha256Hex (serializeProofPayload (generateProof cfgTest dbTest agentA 1234).payload) ∧
    verifyProof cfgTest.jwtSecret
      { generateProof cfgTest dbTest agentA 1234 with payload := tamperedPayload }
      = false := by
  have hne : sha256Hex (serializeProofPayload tamperedPayload)
      ≠ sha256Hex (serializeProofPayload (generateProof cfgTest dbTest agentA 1234).payload) := by
    decide
  exact ⟨(claim_C4 cfgTest dbTest agentA 1234).2.2.2.1, hne,
    (claim_C4 cfgTest dbTest agentA 1234).2.2.2.2 tamperedPayload hne⟩

set_option maxRecDepth 20000 in
set_option maxHeartbeats 1000000 in
/-- FIPS 180-4 test vector for the SHA-256 embedding. -/
theorem sha256Hex_vector_abc :
    sha256Hex "abc"
      = "ba7816bf8f01cfea414140de5dae2223b00361a396177a9cb410ff61f20015ad" := by
  decide

set_option maxRecDepth 20000 in
set_option maxHeartbeats 1000000 in
/-- RFC 4231-style test vector for the HMAC-SHA256 embedding. -/
theorem hmacSha256Hex_vector :
    hmacSha256Hex "key" "The quick brown fox jumps over the lazy dog"
      = "f7bc83f430538424b13298e6aa6fb143ef4d59a14946175997479dbc2d1a3cd8" := by
  decide
